import Mathlib

/-!
Shallow embedding of the EMStudio automation scripts
(src/scripts/klEmsDriver.py, src/scripts/openems_model.py,
src/scripts/palace_model.py) and proofs about them.

The scripts are orchestration glue: they read configuration, call external
library entry points (pya/KLayout, openEMS, gds2palace) and launch external
executables.  We embed each script as a pure function from an abstract
environment (file system, OS environment, external-library behaviour) to a
trace of the observable calls it makes, translated statement by statement
from the Python source.  External library calls are abstract function
parameters except where a claim depends on their documented behaviour, in
which case the model is written out and marked as modelled.
-/

set_option autoImplicit false
set_option maxRecDepth 8000

namespace EMStudio

/-! ### Python dictionaries as association lists (for os.environ) -/

/-- Python dict lookup with default: d.get(k, dflt). The dictionary is an
association list without a duplicate-key discipline; find? returns the first
binding, matching CPython semantics for a dict that never holds duplicates. -/
def dictGet (d : List (String × String)) (k : String) (dflt : String) : String :=
  match d.find? (fun kv => kv.1 == k) with
  | some kv => kv.2
  | none => dflt

/-- Python dict.pop(k, None): remove the key if present, tolerate absence. -/
def dictPop (d : List (String × String)) (k : String) : List (String × String) :=
  d.filter (fun kv => kv.1 != k)

/-! ### Python str.strip -/

/-- Drop characters satisfying p from both ends of a character list. -/
def stripEnds (p : Char → Bool) (l : List Char) : List Char :=
  ((l.dropWhile p).reverse.dropWhile p).reverse

/-- Python s.strip(): strip whitespace from both ends. -/
def pyStripWs (s : String) : String :=
  ⟨stripEnds Char.isWhitespace s.data⟩

/-- Python s.strip of a double-quote character: strip any run of double
quotes from both ends. -/
def pyStripQuotes (s : String) : String :=
  ⟨stripEnds (fun c => c == '"') s.data⟩

/-! ### Abstract file system and OS facts seen by klEmsDriver.py -/

/-- File-system oracle: os.path.exists, os.access(.., os.X_OK), shutil.which. -/
structure FS where
  pathExists : String → Bool
  accessX : String → Bool
  which : String → Option String

/-- Candidate executable names tried on PATH (klEmsDriver.py line 34). -/
def pathCandidates (isWin : Bool) : List String :=
  if isWin then ["EMStudio.exe", "EMStudio"] else ["EMStudio", "EMStudio.exe"]

/-- Common install locations (klEmsDriver.py lines 41-51): on Windows the
ProgramFiles locations from os.environ with literal defaults, otherwise the
three Unix locations with os.path.expanduser for the home directory. -/
def commonLocations (isWin : Bool) (home : String) (environ : List (String × String)) :
    List String :=
  if isWin then
    [dictGet environ "ProgramFiles" "C:\\Program Files" ++ "\\EMStudio\\EMStudio.exe",
     dictGet environ "ProgramFiles(x86)" "C:\\Program Files (x86)" ++ "\\EMStudio\\EMStudio.exe"]
  else
    ["/usr/local/bin/EMStudio", "/usr/bin/EMStudio", home ++ "/bin/EMStudio"]

/-- Loop of klEmsDriver.py lines 35-38: first PATH hit wins. -/
def firstWhich (fs : FS) : List String → Option String
  | [] => none
  | n :: rest =>
    match fs.which n with
    | some p => some p
    | none => firstWhich fs rest

/-- Loop of klEmsDriver.py lines 53-55: first existing executable location. -/
def firstCommon (fs : FS) : List String → Option String
  | [] => none
  | p :: rest =>
    if fs.pathExists p && fs.accessX p then some p else firstCommon fs rest

/-- Embedding of find_emstudio_executable (klEmsDriver.py lines 20-57):
environment override EMSTUDIO_EXE (stripped of whitespace and double
quotes), then PATH candidates, then common install locations. -/
def find_emstudio_executable (isWin : Bool) (home : String)
    (environ : List (String × String)) (fs : FS) : Option String :=
  let env_exe := pyStripQuotes (pyStripWs (dictGet environ "EMSTUDIO_EXE" ""))
  if env_exe != "" && fs.pathExists env_exe then
    some env_exe
  else
    match firstWhich fs (pathCandidates isWin) with
    | some p => some p
    | none => firstCommon fs (commonLocations isWin home environ)

/-! ### Embedding of handler_func (klEmsDriver.py lines 94-148) -/

/-- Observable events of the KLayout plugin handler. -/
inductive KlEv where
  | msgBox (title text : String)
  | popen (args : List String) (env : List (String × String))
deriving DecidableEq

/-- Test for a subprocess-launch event. -/
def KlEv.isPopen : KlEv → Bool
  | .popen _ _ => true
  | _ => false

/-- Environment in which handler_func runs: the pya view state, the current
cell, the OS environment and file system, and whether subprocess.Popen
raises when called. -/
structure KlEnv where
  has_view : Bool
  has_layout : Bool
  cell_name : String
  filename : String
  isWindows : Bool
  home : String
  environ : List (String × String)
  fs : FS
  popen_raises : Bool

/-- Result of a handler run: the events it produced and the value of
os.environ after the run. -/
structure KlOut where
  trace : List KlEv
  environ : List (String × String)

/-- Model of the subprocess.Popen call: it may raise, which the caller must
catch.  The call itself, with its argument list and environment, is the
observable launch of the subprocess. -/
def subprocess_Popen (raises : Bool) : Except String Unit :=
  if raises then Except.error "Popen failed" else Except.ok ()

/-- Error text of klEmsDriver.py lines 117-130 (platform-dependent tail). -/
def notFoundMsg : String :=
  "Could not find EMStudio executable.\n\nTried:\n- env var EMSTUDIO_EXE\n- PATH (EMStudio / EMStudio.exe)\n- common locations\n\nFix options:\n1) Add EMStudio to PATH\n2) Or set EMSTUDIO_EXE to full path, e.g.:\n"

/-- Embedding of handler_func (klEmsDriver.py lines 94-148).  The result is
wrapped in Except: an uncaught Python exception would surface as
Except.error, but the only raising call (subprocess.Popen) sits inside a
try/except, embedded as the match on subprocess_Popen. -/
def handler_func (e : KlEnv) : Except String KlOut :=
  if !e.has_view || !e.has_layout then
    Except.ok ⟨[.msgBox "Error" "No layout is currently loaded in KLayout."], e.environ⟩
  else if e.filename == "" then
    Except.ok ⟨[.msgBox "Error" "Current layout has no filename.\nPlease save/export the layout to GDS first."], e.environ⟩
  else
    match find_emstudio_executable e.isWindows e.home e.environ e.fs with
    | none => Except.ok ⟨[.msgBox "Error" notFoundMsg], e.environ⟩
    | some emstudio_path =>
      let env := dictPop (dictPop e.environ "PYTHONHOME") "PYTHONPATH"
      let args := [emstudio_path, "-gdsfile", e.filename, "-topcell", e.cell_name]
      match subprocess_Popen e.popen_raises with
      | Except.ok _ => Except.ok ⟨[.popen args env], e.environ⟩
      | Except.error msg =>
        Except.ok ⟨[.popen args env, .msgBox "Error" ("Failed to launch EMStudio:\n" ++ msg)], e.environ⟩

/-! ### Shared model of the solver libraries' data types

The port container and port objects come from the external simulation
libraries (the modules package for openEMS, gds2palace for Palace); both
scripts use them identically. -/

/-- Simulation port as constructed by simulation_setup.simulation_port
with the keyword arguments used in both driver scripts. -/
structure SimPort where
  portnumber : Nat
  voltage : Int
  port_Z0 : Nat
  source_layernum : Nat
  from_layername : String
  to_layername : String
  direction : String
deriving DecidableEq

/-- Port container, simulation_setup.all_simulation_ports(). -/
structure AllSimPorts where
  ports : List SimPort
deriving DecidableEq

/-- Library method add_port: appends the port to the container. -/
def AllSimPorts.add_port (a : AllSimPorts) (p : SimPort) : AllSimPorts :=
  ⟨a.ports ++ [p]⟩

/-- Modelled from the spec: the library attribute portlayers (code of the
external modules/gds2palace packages, not in this repository) lists every
simulation port's source layer number, in port order; the drivers append it
to the technology layer list so that port layers are read from GDSII. -/
def AllSimPorts.portlayers (a : AllSimPorts) : List Nat :=
  a.ports.map (fun p => p.source_layernum)

/-- Library attribute portcount: number of ports in the container. -/
def AllSimPorts.portcount (a : AllSimPorts) : Nat :=
  a.ports.length

/-- Modelled from the spec: the library method all_active_excitations
(external gds2palace package, not in this repository) returns the ports
whose excitation is on; per the palace_model.py comment, excitations are
switched off by voltage=0. -/
def AllSimPorts.all_active_excitations (a : AllSimPorts) : List SimPort :=
  a.ports.filter (fun p => p.voltage ≠ 0)

/-- Result of stackup_reader.read_substrate that the drivers use: the metal
layer list exposing getlayernumbers(). -/
structure StackupData where
  metalLayerNumbers : List Nat

/-- Observable events of the two solver driver scripts. -/
inductive DrvEvent where
  | loadSettings
  | definePort (p : SimPort)
  | readSubstrate (xml : String)
  | readGds (gds : String) (layers : List Nat) (purposes : List Nat) (cellname : String)
  | setExcite (excite : List Nat)
  | setupSim (excite : List Nat)
  | runSim (excite : List Nat)
  | writeSnp (fname : String)
  | createPalace (excite : List SimPort)
  | writeRunScript (dir : String)
  | launchProc (cmd : List String)
deriving DecidableEq

/-- Test for a solver run (the openEMS FDTD run). -/
def DrvEvent.isRunSim : DrvEvent → Bool
  | .runSim _ => true
  | _ => false

/-- Test for an S-parameter (Touchstone) file write. -/
def DrvEvent.isWriteSnp : DrvEvent → Bool
  | .writeSnp _ => true
  | _ => false

/-- Test for an external process launch. -/
def DrvEvent.isLaunchProc : DrvEvent → Bool
  | .launchProc _ => true
  | _ => false

/-- Test for the events of the per-port excitation loop of openems_model.py
lines 140-147 (the settings mutation and the two library calls). -/
def DrvEvent.isExciteLoop : DrvEvent → Bool
  | .setExcite _ => true
  | .setupSim _ => true
  | .runSim _ => true
  | _ => false

/-! ### openems_model.py -/

namespace openems_model

/-- Input file placeholders of openems_model.py lines 32-35. -/
def gds_filename : String := "%1"

/-- Optional cell name placeholder, openems_model.py line 33. -/
def cellname : String := "%3"

/-- Stackup XML placeholder, openems_model.py line 35. -/
def XML_filename : String := "%2"

/-- GDSII purpose list, openems_model.py line 38. -/
def purpose : List Nat := [0]

/-- Frequency sweep start (Hz), openems_model.py line 63, as a rational. -/
def fstart : ℚ := 0

/-- Frequency sweep stop (Hz), openems_model.py line 64, as a rational. -/
def fstop : ℚ := 110 * 10 ^ 9

/-- Number of frequency points, openems_model.py line 65. -/
def numfreq : Nat := 401

/-- Port list built by the two add_port calls of openems_model.py
lines 80-98. -/
def simulation_ports : AllSimPorts :=
  ((AllSimPorts.mk []).add_port
      ⟨1, 1, 50, 201, "Metal1", "TopMetal2", "z"⟩).add_port
      ⟨2, 1, 50, 202, "Metal1", "TopMetal2", "z"⟩

/-- External openEMS-side library calls the script makes, abstracted: the
stackup reader and the per-(i,j) S-parameter postprocessing.  The carrier σ
stands for one complex S-parameter sample. -/
structure Lib (σ : Type) where
  read_substrate : String → StackupData
  calculate_Sij : Nat → Nat → List ℚ → String → AllSimPorts → List σ

/-- Model of np.linspace(a, b, n): n evenly spaced samples from a to b. -/
def linspaceQ (a b : ℚ) (n : Nat) : List ℚ :=
  (List.range n).map (fun i : Nat => a + (b - a) * (i : ℚ) / ((n - 1 : Nat) : ℚ))

/-- Frequency vector of openems_model.py line 155. -/
def fvec : List ℚ := linspaceQ fstart fstop numfreq

/-- Option-valued mapM used to embed the numpy fill loop. -/
def optMapM {α β : Type} (p : α → Option β) : List α → Option (List β)
  | [] => some []
  | a :: l =>
    match p a with
    | none => none
    | some b =>
      match optMapM p l with
      | none => none
      | some bs => some (b :: bs)

/-- Embedding of openems_model.py lines 150-160: np.empty((n, n, numfreq))
followed by the double loop assigning s_params[i-1, j-1] =
calculate_Sij(i, j, f, sim_path, simulation_ports) for i, j in 1..n.  The
numpy slice assignment requires each result to fill the numfreq-long third
axis; a mismatched length is a numpy broadcast error, embedded as none. -/
def np_fill_smatrix {σ : Type} (n nf : Nat) (sij : Nat → Nat → List σ) :
    Option (List (List (List σ))) :=
  optMapM (fun i => optMapM (fun j =>
      if (sij (i + 1) (j + 1)).length = nf then some (sij (i + 1) (j + 1)) else none)
    (List.range n)) (List.range n)

/-- Touchstone file name of openems_model.py line 163:
os.path.join(sim_path, model_basename + '.s' + str(num_ports) + 'p'). -/
def snp_name (sim_path model_basename : String) : String :=
  sim_path ++ "/" ++ model_basename ++ ".s" ++ toString simulation_ports.portcount ++ "p"

/-- The S-parameter matrix the script builds (openems_model.py
lines 150-160), as a function of the abstract library. -/
def s_params {σ : Type} (lib : Lib σ) (sim_path : String) :
    Option (List (List (List σ))) :=
  np_fill_smatrix simulation_ports.portcount numfreq
    (fun i j => lib.calculate_Sij i j fvec sim_path simulation_ports)

/-- Events of openems_model.py up to the postprocessing: settings assembly
(lines 23-77), port definitions (lines 80-98), stackup and GDSII reads
(lines 103-116), and the per-port excitation loop (lines 140-147), which per
iteration sets settings of excite_portnumbers to the singleton of the
port's number and calls setupSimulation then runSimulation. -/
def preEvents {σ : Type} (lib : Lib σ) : List DrvEvent :=
  let stack := lib.read_substrate XML_filename
  let layernumbers := stack.metalLayerNumbers ++ simulation_ports.portlayers
  [DrvEvent.loadSettings]
  ++ simulation_ports.ports.map DrvEvent.definePort
  ++ [DrvEvent.readSubstrate XML_filename,
      DrvEvent.readGds gds_filename layernumbers purpose cellname]
  ++ simulation_ports.ports.flatMap (fun port =>
      [DrvEvent.setExcite [port.portnumber],
       DrvEvent.setupSim [port.portnumber],
       DrvEvent.runSim [port.portnumber]])

/-- Trace of one run of openems_model.py: the events above, then the
postprocessing and Touchstone write of lines 150-164.  When the numpy fill
fails the script dies with an exception before the write (the truncated
trace). -/
def trace {σ : Type} (lib : Lib σ) (sim_path model_basename : String) :
    List DrvEvent :=
  match s_params lib sim_path with
  | none => preEvents lib
  | some _ => preEvents lib ++ [DrvEvent.writeSnp (snp_name sim_path model_basename)]

end openems_model

/-! ### palace_model.py -/

namespace palace_model

/-- Workflow flag of palace_model.py line 20: start solver after creating
the model? -/
def start_simulation : Bool := false

/-- Solver launch command, palace_model.py line 21. -/
def run_command : List String := ["./run_sim"]

/-- GDSII input file, palace_model.py line 25. -/
def gds_filename : String := "line_simple_viaport.gds"

/-- Optional cell name, palace_model.py line 26. -/
def gds_cellname : String := ""

/-- Stackup XML input file, palace_model.py line 28. -/
def XML_filename : String := "SG13G2_nosub.xml"

/-- GDSII purpose list, palace_model.py line 48. -/
def purpose : List Nat := [0]

/-- Port list built by the two add_port calls of palace_model.py
lines 74-77. -/
def simulation_ports : AllSimPorts :=
  ((AllSimPorts.mk []).add_port
      ⟨1, 1, 50, 201, "Metal1", "TopMetal2", "z"⟩).add_port
      ⟨2, 1, 50, 202, "Metal1", "TopMetal2", "z"⟩

/-- External gds2palace library calls the script makes, abstracted: the
stackup reader; create_palace's returned names are irrelevant to the
claims and omitted. -/
structure Lib where
  read_substrate : String → StackupData

/-- Trace of one run of palace_model.py: settings assembly (lines 17-69),
port definitions (lines 74-77), stackup and GDSII reads (lines 83-96),
model generation via create_palace (line 113), the run-script write
(line 117), and the conditional solver launch (lines 120-125). -/
def trace (lib : Lib) (sim_path : String) : List DrvEvent :=
  let stack := lib.read_substrate XML_filename
  let layernumbers := stack.metalLayerNumbers ++ simulation_ports.portlayers
  [DrvEvent.loadSettings]
  ++ simulation_ports.ports.map DrvEvent.definePort
  ++ [DrvEvent.readSubstrate XML_filename,
      DrvEvent.readGds gds_filename layernumbers purpose gds_cellname,
      DrvEvent.createPalace simulation_ports.all_active_excitations,
      DrvEvent.writeRunScript sim_path]
  ++ (if start_simulation then [DrvEvent.launchProc run_command] else [])

end palace_model

/-! ### Step phases for the ordering claims -/

/-- Phase number a driver event would have under the spec's claimed order:
load settings, then read stackup/geometry, then define ports, then invoke
the solver library, then write the output file. -/
def claimedPhase : DrvEvent → Nat
  | .loadSettings => 0
  | .readSubstrate _ => 1
  | .readGds _ _ _ _ => 1
  | .definePort _ => 2
  | .setExcite _ => 3
  | .setupSim _ => 3
  | .runSim _ => 3
  | .createPalace _ => 3
  | .launchProc _ => 3
  | .writeSnp _ => 4
  | .writeRunScript _ => 4

/-- Phase number of a driver event in the order the scripts actually use:
load settings, then define ports, then read stackup/geometry, then invoke
the solver library, then write the output file (with the optional external
solver launch of palace_model.py last). -/
def actualPhase : DrvEvent → Nat
  | .loadSettings => 0
  | .definePort _ => 1
  | .readSubstrate _ => 2
  | .readGds _ _ _ _ => 2
  | .setExcite _ => 3
  | .setupSim _ => 3
  | .runSim _ => 3
  | .createPalace _ => 3
  | .writeSnp _ => 4
  | .writeRunScript _ => 4
  | .launchProc _ => 5

/-- A list of phase numbers is nondecreasing. -/
def nondecreasing : List Nat → Bool
  | [] => true
  | [_] => true
  | a :: b :: l => decide (a ≤ b) && nondecreasing (b :: l)

/-! ### Import lists of the three scripts, copied from their import
statements (klEmsDriver.py lines 1-5, openems_model.py lines 1-8,
palace_model.py lines 3-8) -/

/-- Modules imported by klEmsDriver.py. -/
def klEmsDriver_imports : List String := ["pya", "subprocess", "os", "shutil", "sys"]

/-- Modules imported by openems_model.py. -/
def openems_model_imports : List String := ["os", "sys", "modules", "openEMS", "numpy"]

/-- Modules imported by palace_model.py. -/
def palace_model_imports : List String := ["os", "sys", "subprocess", "gds2palace"]

/-- Module names of the three scripts of this repository. -/
def scriptModuleNames : List String := ["klEmsDriver", "openems_model", "palace_model"]

/-! ### Concrete instantiations used as witnesses and counterexamples -/

/-- Concrete openEMS library behaviour: empty stackup, S-parameter vectors
of the expected length 401. -/
def openemsLibW : openems_model.Lib Unit :=
  ⟨fun _ => ⟨[]⟩, fun _ _ _ _ _ => List.replicate 401 ()⟩

/-- Concrete openEMS library behaviour whose postprocessing results have the
wrong length (numpy would fail to broadcast them). -/
def openemsLibBad : openems_model.Lib Unit :=
  ⟨fun _ => ⟨[]⟩, fun _ _ _ _ _ => []⟩

/-- Concrete gds2palace library behaviour: empty stackup. -/
def palaceLibW : palace_model.Lib :=
  ⟨fun _ => ⟨[]⟩⟩

/-- Concrete file system: only /opt/EMStudio exists, nothing is on PATH. -/
def fsW : FS :=
  ⟨fun p => p == "/opt/EMStudio", fun _ => false, fun _ => none⟩

/-- Concrete file system on which every lookup fails. -/
def fsNone : FS :=
  ⟨fun _ => false, fun _ => false, fun _ => none⟩

/-- Concrete handler environment: layout loaded and saved, EMSTUDIO_EXE set
with whitespace and quotes, PYTHONHOME present but PYTHONPATH absent. -/
def klEnvW : KlEnv :=
  ⟨true, true, "TOP", "chip.gds", false, "/home/u",
   [("EMSTUDIO_EXE", " \"/opt/EMStudio\" "), ("PYTHONHOME", "/usr"), ("PATH", "/bin")],
   fsW, false⟩

/-- Concrete handler environment with no layout loaded. -/
def klEnvNoView : KlEnv :=
  ⟨false, false, "", "", false, "/home/u", [], fsNone, false⟩

/-- Concrete handler environment where Popen raises. -/
def klEnvRaise : KlEnv :=
  ⟨true, true, "TOP", "chip.gds", false, "/home/u",
   [("EMSTUDIO_EXE", " \"/opt/EMStudio\" "), ("PYTHONHOME", "/usr"), ("PATH", "/bin")],
   fsW, true⟩

/-! ### Helper lemmas -/

/-- Option-valued mapM of a pointwise-successful function is the map. -/
theorem optMapM_eq_map {α β : Type} (p : α → Option β) (f : α → β) (l : List α)
    (h : ∀ a ∈ l, p a = some (f a)) :
    openems_model.optMapM p l = some (l.map f) := by
  induction l with
  | nil => rfl
  | cons a l ih =>
    have ha := h a (by simp)
    have hl := ih (fun b hb => h b (by simp [hb]))
    simp [openems_model.optMapM, ha, hl]

/-- The numpy fill loop succeeds when every postprocessing result has the
expected length, and produces the evident matrix of results. -/
theorem np_fill_smatrix_eq {σ : Type} (n nf : Nat) (sij : Nat → Nat → List σ)
    (h : ∀ i j, (sij (i + 1) (j + 1)).length = nf) :
    openems_model.np_fill_smatrix n nf sij
      = some ((List.range n).map (fun i =>
          (List.range n).map (fun j => sij (i + 1) (j + 1)))) := by
  unfold openems_model.np_fill_smatrix
  apply optMapM_eq_map
  intro i _
  apply optMapM_eq_map
  intro j _
  rw [if_pos (h i j)]

/-- The s_params matrix of openems_model.py under the length contract. -/
theorem s_params_eq {σ : Type} (lib : openems_model.Lib σ) (sp : String)
    (hlen : ∀ i j, (lib.calculate_Sij i j openems_model.fvec sp
        openems_model.simulation_ports).length = openems_model.numfreq) :
    openems_model.s_params lib sp
      = some ((List.range 2).map (fun i => (List.range 2).map (fun j =>
          lib.calculate_Sij (i + 1) (j + 1) openems_model.fvec sp
            openems_model.simulation_ports))) :=
  np_fill_smatrix_eq 2 openems_model.numfreq _ (fun i j => hlen (i + 1) (j + 1))

/-- The openems_model.py trace under the length contract: the main phase
followed by the Touchstone write. -/
theorem openems_trace_eq {σ : Type} (lib : openems_model.Lib σ) (sp mb : String)
    (hlen : ∀ i j, (lib.calculate_Sij i j openems_model.fvec sp
        openems_model.simulation_ports).length = openems_model.numfreq) :
    openems_model.trace lib sp mb
      = openems_model.preEvents lib
        ++ [DrvEvent.writeSnp (openems_model.snp_name sp mb)] := by
  unfold openems_model.trace
  rw [s_params_eq lib sp hlen]

/-- Elementwise description of linspaceQ. -/
theorem linspaceQ_getElem (a b : ℚ) (n i : Nat) (hi : i < n) :
    (openems_model.linspaceQ a b n)[i]?
      = some (a + (b - a) * i / ((n - 1 : Nat) : ℚ)) := by
  unfold openems_model.linspaceQ
  rw [List.getElem?_map, List.getElem?_range hi]
  rfl

/-- Length of linspaceQ. -/
theorem linspaceQ_length (a b : ℚ) (n : Nat) :
    (openems_model.linspaceQ a b n).length = n := by
  unfold openems_model.linspaceQ
  rw [List.length_map, List.length_range]

/-- The first PATH hit loop fails exactly when every candidate fails. -/
theorem firstWhich_eq_none (fs : FS) (l : List String) :
    firstWhich fs l = none ↔ ∀ n ∈ l, fs.which n = none := by
  induction l with
  | nil => simp [firstWhich]
  | cons a l ih =>
    cases h : fs.which a with
    | none => simp [firstWhich, h, ih]
    | some p => simp [firstWhich, h]

/-- The common-locations loop fails exactly when every location fails. -/
theorem firstCommon_eq_none (fs : FS) (l : List String) :
    firstCommon fs l = none ↔
      ∀ p ∈ l, (fs.pathExists p && fs.accessX p) = false := by
  induction l with
  | nil => simp [firstCommon]
  | cons a l ih =>
    cases hpe : fs.pathExists a <;> cases hax : fs.accessX a <;>
      simp [firstCommon, hpe, hax, ih]

/-- Membership in a dictionary after removing one key. -/
theorem mem_dictPop (d : List (String × String)) (k0 k v : String) :
    (k, v) ∈ dictPop d k0 ↔ ((k, v) ∈ d ∧ k ≠ k0) := by
  simp [dictPop, List.mem_filter]

/-- Case analysis of handler_func: it always returns normally (the only
raising call is caught), and the run is one of five shapes matching the
five control-flow paths of klEmsDriver.py lines 94-148. -/
theorem handler_func_spec (e : KlEnv) :
    ∃ out, handler_func e = Except.ok out ∧
      (((e.has_view = false ∨ e.has_layout = false) ∧
          out = ⟨[KlEv.msgBox "Error" "No layout is currently loaded in KLayout."], e.environ⟩)
       ∨ (e.has_view = true ∧ e.has_layout = true ∧ e.filename = "" ∧
          out = ⟨[KlEv.msgBox "Error" "Current layout has no filename.\nPlease save/export the layout to GDS first."], e.environ⟩)
       ∨ (e.has_view = true ∧ e.has_layout = true ∧ e.filename ≠ "" ∧
          find_emstudio_executable e.isWindows e.home e.environ e.fs = none ∧
          out = ⟨[KlEv.msgBox "Error" notFoundMsg], e.environ⟩)
       ∨ (∃ p, e.has_view = true ∧ e.has_layout = true ∧ e.filename ≠ "" ∧
          find_emstudio_executable e.isWindows e.home e.environ e.fs = some p ∧
          e.popen_raises = false ∧
          out = ⟨[KlEv.popen [p, "-gdsfile", e.filename, "-topcell", e.cell_name]
                   (dictPop (dictPop e.environ "PYTHONHOME") "PYTHONPATH")], e.environ⟩)
       ∨ (∃ p, e.has_view = true ∧ e.has_layout = true ∧ e.filename ≠ "" ∧
          find_emstudio_executable e.isWindows e.home e.environ e.fs = some p ∧
          e.popen_raises = true ∧
          out = ⟨[KlEv.popen [p, "-gdsfile", e.filename, "-topcell", e.cell_name]
                   (dictPop (dictPop e.environ "PYTHONHOME") "PYTHONPATH"),
                  KlEv.msgBox "Error" ("Failed to launch EMStudio:\n" ++ "Popen failed")],
                 e.environ⟩)) := by
  cases hv : e.has_view with
  | false =>
    refine ⟨_, ?_, Or.inl ⟨Or.inl rfl, rfl⟩⟩
    simp [handler_func, hv]
  | true =>
    cases hl : e.has_layout with
    | false =>
      refine ⟨_, ?_, Or.inl ⟨Or.inr rfl, rfl⟩⟩
      simp [handler_func, hl]
    | true =>
      cases hfn : e.filename == "" with
      | true =>
        refine ⟨_, ?_, Or.inr (Or.inl ⟨rfl, rfl, eq_of_beq hfn, rfl⟩)⟩
        simp [handler_func, hv, hl, hfn]
      | false =>
        have hne : e.filename ≠ "" := by
          intro h
          rw [h] at hfn
          simp at hfn
        cases hfind : find_emstudio_executable e.isWindows e.home e.environ e.fs with
        | none =>
          refine ⟨_, ?_, Or.inr (Or.inr (Or.inl ⟨rfl, rfl, hne, rfl, rfl⟩))⟩
          simp [handler_func, hv, hl, hfn, hfind]
        | some p =>
          cases hr : e.popen_raises with
          | false =>
            refine ⟨_, ?_, Or.inr (Or.inr (Or.inr (Or.inl ⟨p, rfl, rfl, hne, rfl, rfl, rfl⟩)))⟩
            simp [handler_func, subprocess_Popen, hv, hl, hfn, hfind, hr]
          | true =>
            refine ⟨_, ?_, Or.inr (Or.inr (Or.inr (Or.inr ⟨p, rfl, rfl, hne, rfl, rfl, rfl⟩)))⟩
            simp [handler_func, subprocess_Popen, hv, hl, hfn, hfind, hr]

/-! ### Claim theorems -/

/-- C1: when a layout view is loaded, the active cellview has a non-empty
filename and find_emstudio_executable returns a path, handler_func makes
exactly one subprocess launch, with argument list exactly
[executable path, -gdsfile, layout filename, -topcell, cell name]. -/
theorem klems_c1_single_popen (e : KlEnv) (h1 : e.has_view = true)
    (h2 : e.has_layout = true) (h3 : e.filename ≠ "") (p : String)
    (h4 : find_emstudio_executable e.isWindows e.home e.environ e.fs = some p) :
    ∃ out, handler_func e = Except.ok out ∧
      out.trace.filter KlEv.isPopen
        = [KlEv.popen [p, "-gdsfile", e.filename, "-topcell", e.cell_name]
            (dictPop (dictPop e.environ "PYTHONHOME") "PYTHONPATH")] := by
  obtain ⟨out, hh, hcase⟩ := handler_func_spec e
  refine ⟨out, hh, ?_⟩
  rcases hcase with ⟨hc, rfl⟩ | ⟨-, -, hfn, rfl⟩ | ⟨-, -, -, hfind, rfl⟩ |
      ⟨q, -, -, -, hfind, -, rfl⟩ | ⟨q, -, -, -, hfind, -, rfl⟩
  · rcases hc with h | h
    · rw [h1] at h; cases h
    · rw [h2] at h; cases h
  · exact absurd hfn h3
  · rw [h4] at hfind; cases hfind
  · rw [h4] at hfind
    injection hfind with hq
    subst hq
    simp [KlEv.isPopen]
  · rw [h4] at hfind
    injection hfind with hq
    subst hq
    simp [KlEv.isPopen]

/-- C1 witness: on a concrete environment with a loaded, saved layout and
EMSTUDIO_EXE pointing at an existing executable, exactly the expected
launch happens. -/
theorem klems_c1_single_popen_witness :
    ∃ out, handler_func klEnvW = Except.ok out ∧
      out.trace.filter KlEv.isPopen
        = [KlEv.popen ["/opt/EMStudio", "-gdsfile", "chip.gds", "-topcell", "TOP"]
            (dictPop (dictPop klEnvW.environ "PYTHONHOME") "PYTHONPATH")] :=
  klems_c1_single_popen klEnvW rfl rfl (by decide) "/opt/EMStudio" (by decide)

/-- C8: handler_func launches no subprocess on any of its three error
paths, reporting a critical message box instead, and a raising Popen is
caught and reported rather than propagated (handler_func always returns
normally, as the Except.ok at every path shows). -/
theorem klems_c8_error_paths (e : KlEnv) :
    ∃ out, handler_func e = Except.ok out ∧
      ((e.has_view = false ∨ e.has_layout = false) →
        out.trace = [KlEv.msgBox "Error" "No layout is currently loaded in KLayout."] ∧
        out.trace.filter KlEv.isPopen = []) ∧
      (e.has_view = true → e.has_layout = true → e.filename = "" →
        out.trace = [KlEv.msgBox "Error" "Current layout has no filename.\nPlease save/export the layout to GDS first."] ∧
        out.trace.filter KlEv.isPopen = []) ∧
      (e.has_view = true → e.has_layout = true → e.filename ≠ "" →
        find_emstudio_executable e.isWindows e.home e.environ e.fs = none →
        out.trace = [KlEv.msgBox "Error" notFoundMsg] ∧
        out.trace.filter KlEv.isPopen = []) ∧
      (e.has_view = true → e.has_layout = true → e.filename ≠ "" →
        ∀ p, find_emstudio_executable e.isWindows e.home e.environ e.fs = some p →
        e.popen_raises = true →
        KlEv.msgBox "Error" ("Failed to launch EMStudio:\n" ++ "Popen failed")
          ∈ out.trace) := by
  obtain ⟨out, hh, hcase⟩ := handler_func_spec e
  refine ⟨out, hh, ?_, ?_, ?_, ?_⟩
  · intro hc
    rcases hcase with ⟨-, rfl⟩ | ⟨h1, h2, -, rfl⟩ | ⟨h1, h2, -, -, rfl⟩ |
        ⟨q, h1, h2, -, -, -, rfl⟩ | ⟨q, h1, h2, -, -, -, rfl⟩
    · exact ⟨rfl, rfl⟩
    all_goals
      rcases hc with h | h
      all_goals first
        | (rw [h1] at h; cases h)
        | (rw [h2] at h; cases h)
  · intro hv hl hfn
    rcases hcase with ⟨hc, rfl⟩ | ⟨-, -, -, rfl⟩ | ⟨-, -, hne, -, rfl⟩ |
        ⟨q, -, -, hne, -, -, rfl⟩ | ⟨q, -, -, hne, -, -, rfl⟩
    · rcases hc with h | h
      · rw [hv] at h; cases h
      · rw [hl] at h; cases h
    · exact ⟨rfl, rfl⟩
    all_goals exact absurd hfn hne
  · intro hv hl hne hfind
    rcases hcase with ⟨hc, rfl⟩ | ⟨-, -, hfn, rfl⟩ | ⟨-, -, -, -, rfl⟩ |
        ⟨q, -, -, -, hq, -, rfl⟩ | ⟨q, -, -, -, hq, -, rfl⟩
    · rcases hc with h | h
      · rw [hv] at h; cases h
      · rw [hl] at h; cases h
    · exact absurd hfn hne
    · exact ⟨rfl, rfl⟩
    all_goals (rw [hfind] at hq; cases hq)
  · intro hv hl hne p hp hr
    rcases hcase with ⟨hc, rfl⟩ | ⟨-, -, hfn, rfl⟩ | ⟨-, -, -, hfind, rfl⟩ |
        ⟨q, -, -, -, -, hr2, rfl⟩ | ⟨q, -, -, -, -, -, rfl⟩
    · rcases hc with h | h
      · rw [hv] at h; cases h
      · rw [hl] at h; cases h
    · exact absurd hfn hne
    · rw [hp] at hfind; cases hfind
    · rw [hr] at hr2; cases hr2
    · simp

/-- C8 witness: with no layout loaded the handler shows the message box and
launches nothing; with a raising Popen the failure is reported in a message
box and the handler still returns normally. -/
theorem klems_c8_error_paths_witness :
    (∃ out, handler_func klEnvNoView = Except.ok out ∧
      out.trace = [KlEv.msgBox "Error" "No layout is currently loaded in KLayout."] ∧
      out.trace.filter KlEv.isPopen = []) ∧
    (∃ out, handler_func klEnvRaise = Except.ok out ∧
      KlEv.msgBox "Error" ("Failed to launch EMStudio:\n" ++ "Popen failed")
        ∈ out.trace) := by
  constructor
  · obtain ⟨out, hh, hc, -, -, -⟩ := klems_c8_error_paths klEnvNoView
    exact ⟨out, hh, hc (Or.inl rfl)⟩
  · obtain ⟨out, hh, -, -, -, hc⟩ := klems_c8_error_paths klEnvRaise
    exact ⟨out, hh, hc rfl rfl (by decide) "/opt/EMStudio" (by decide) rfl⟩

/-- C9: the environment handed to the EMStudio subprocess is os.environ
minus the keys PYTHONHOME and PYTHONPATH (tolerating their absence, since
the statement holds for every environ), and os.environ itself is returned
unchanged. -/
theorem klems_c9_env (e : KlEnv) (h1 : e.has_view = true)
    (h2 : e.has_layout = true) (h3 : e.filename ≠ "") (p : String)
    (h4 : find_emstudio_executable e.isWindows e.home e.environ e.fs = some p) :
    ∃ out, handler_func e = Except.ok out ∧ out.environ = e.environ ∧
      out.trace.filter KlEv.isPopen
        = [KlEv.popen [p, "-gdsfile", e.filename, "-topcell", e.cell_name]
            (dictPop (dictPop e.environ "PYTHONHOME") "PYTHONPATH")] ∧
      ∀ k v, ((k, v) ∈ dictPop (dictPop e.environ "PYTHONHOME") "PYTHONPATH" ↔
        ((k, v) ∈ e.environ ∧ k ≠ "PYTHONHOME" ∧ k ≠ "PYTHONPATH")) := by
  have hmem : ∀ k v, ((k, v) ∈ dictPop (dictPop e.environ "PYTHONHOME") "PYTHONPATH" ↔
      ((k, v) ∈ e.environ ∧ k ≠ "PYTHONHOME" ∧ k ≠ "PYTHONPATH")) := by
    intro k v
    rw [mem_dictPop, mem_dictPop]
    exact and_assoc
  obtain ⟨out, hh, hcase⟩ := handler_func_spec e
  refine ⟨out, hh, ?_⟩
  rcases hcase with ⟨hc, rfl⟩ | ⟨-, -, hfn, rfl⟩ | ⟨-, -, -, hfind, rfl⟩ |
      ⟨q, -, -, -, hfind, -, rfl⟩ | ⟨q, -, -, -, hfind, -, rfl⟩
  · rcases hc with h | h
    · rw [h1] at h; cases h
    · rw [h2] at h; cases h
  · exact absurd hfn h3
  · rw [h4] at hfind; cases hfind
  · rw [h4] at hfind
    injection hfind with hq
    subst hq
    exact ⟨rfl, by simp [KlEv.isPopen], hmem⟩
  · rw [h4] at hfind
    injection hfind with hq
    subst hq
    exact ⟨rfl, by simp [KlEv.isPopen], hmem⟩

/-- C9 witness: concrete run of the success path, with PYTHONPATH absent
from the starting environment and PYTHONHOME present, showing the passed
environment drops the two keys and os.environ comes back unchanged. -/
theorem klems_c9_env_witness :
    ∃ out, handler_func klEnvW = Except.ok out ∧ out.environ = klEnvW.environ ∧
      out.trace.filter KlEv.isPopen
        = [KlEv.popen ["/opt/EMStudio", "-gdsfile", "chip.gds", "-topcell", "TOP"]
            (dictPop (dictPop klEnvW.environ "PYTHONHOME") "PYTHONPATH")] ∧
      ∀ k v, ((k, v) ∈ dictPop (dictPop klEnvW.environ "PYTHONHOME") "PYTHONPATH" ↔
        ((k, v) ∈ klEnvW.environ ∧ k ≠ "PYTHONHOME" ∧ k ≠ "PYTHONPATH")) :=
  klems_c9_env klEnvW rfl rfl (by decide) "/opt/EMStudio" (by decide)

/-- C10: find_emstudio_executable returns the EMSTUDIO_EXE value (stripped
of whitespace and surrounding double quotes) whenever that value is
non-empty and names an existing path, regardless of the PATH and
common-location oracles; and it returns None exactly when the environment
override, every PATH candidate and every common location all fail. -/
theorem klems_c10_find (isWin : Bool) (home : String)
    (environ : List (String × String)) (fs : FS) :
    (pyStripQuotes (pyStripWs (dictGet environ "EMSTUDIO_EXE" "")) ≠ "" →
      fs.pathExists (pyStripQuotes (pyStripWs (dictGet environ "EMSTUDIO_EXE" ""))) = true →
      find_emstudio_executable isWin home environ fs
        = some (pyStripQuotes (pyStripWs (dictGet environ "EMSTUDIO_EXE" "")))) ∧
    (find_emstudio_executable isWin home environ fs = none ↔
      ((pyStripQuotes (pyStripWs (dictGet environ "EMSTUDIO_EXE" "")) = "" ∨
        fs.pathExists (pyStripQuotes (pyStripWs (dictGet environ "EMSTUDIO_EXE" ""))) = false) ∧
       (∀ n ∈ pathCandidates isWin, fs.which n = none) ∧
       (∀ p ∈ commonLocations isWin home environ,
          (fs.pathExists p && fs.accessX p) = false))) := by
  constructor
  · intro h1 h2
    have hb : (pyStripQuotes (pyStripWs (dictGet environ "EMSTUDIO_EXE" "")) != "") = true :=
      bne_iff_ne.mpr h1
    simp [find_emstudio_executable, hb, h2]
  · cases hc : (pyStripQuotes (pyStripWs (dictGet environ "EMSTUDIO_EXE" "")) != "")
        && fs.pathExists (pyStripQuotes (pyStripWs (dictGet environ "EMSTUDIO_EXE" ""))) with
    | true =>
      rw [Bool.and_eq_true] at hc
      obtain ⟨h1, h2⟩ := hc
      have hfind : find_emstudio_executable isWin home environ fs
          = some (pyStripQuotes (pyStripWs (dictGet environ "EMSTUDIO_EXE" ""))) := by
        simp [find_emstudio_executable, h1, h2]
      rw [hfind]
      constructor
      · intro h
        exact absurd h (by simp)
      · rintro ⟨hfirst, -, -⟩
        exfalso
        rcases hfirst with he | hpe
        · exact bne_iff_ne.mp h1 he
        · rw [h2] at hpe
          cases hpe
    | false =>
      have hfirst : pyStripQuotes (pyStripWs (dictGet environ "EMSTUDIO_EXE" "")) = ""
          ∨ fs.pathExists (pyStripQuotes (pyStripWs (dictGet environ "EMSTUDIO_EXE" ""))) = false := by
        rcases Bool.and_eq_false_iff.mp hc with h | h
        · left
          by_contra hne
          rw [bne_iff_ne.mpr hne] at h
          cases h
        · right
          exact h
      cases hw : firstWhich fs (pathCandidates isWin) with
      | some p =>
        have hfind : find_emstudio_executable isWin home environ fs = some p := by
          simp [find_emstudio_executable, hc, hw]
        rw [hfind]
        constructor
        · intro h
          exact absurd h (by simp)
        · rintro ⟨-, hall, -⟩
          exfalso
          have hn := (firstWhich_eq_none fs (pathCandidates isWin)).mpr hall
          rw [hw] at hn
          cases hn
      | none =>
        have hfind : find_emstudio_executable isWin home environ fs
            = firstCommon fs (commonLocations isWin home environ) := by
          simp [find_emstudio_executable, hc, hw]
        rw [hfind, firstCommon_eq_none]
        constructor
        · intro h3
          exact ⟨hfirst, (firstWhich_eq_none fs (pathCandidates isWin)).mp hw, h3⟩
        · rintro ⟨-, -, h3⟩
          exact h3

/-- C10 witness: on a concrete environment whose EMSTUDIO_EXE value is
surrounded by whitespace and quotes and names an existing path, the
stripped value is returned; and on an environment where everything fails,
None is returned. -/
theorem klems_c10_find_witness :
    (pyStripQuotes (pyStripWs (dictGet klEnvW.environ "EMSTUDIO_EXE" "")) ≠ ""
     ∧ fsW.pathExists (pyStripQuotes (pyStripWs (dictGet klEnvW.environ "EMSTUDIO_EXE" ""))) = true
     ∧ find_emstudio_executable false "/home/u" klEnvW.environ fsW
        = some (pyStripQuotes (pyStripWs (dictGet klEnvW.environ "EMSTUDIO_EXE" ""))))
    ∧ (find_emstudio_executable false "/home/u" [] fsNone = none ↔
      ((pyStripQuotes (pyStripWs (dictGet [] "EMSTUDIO_EXE" "")) = "" ∨
        fsNone.pathExists (pyStripQuotes (pyStripWs (dictGet [] "EMSTUDIO_EXE" ""))) = false) ∧
       (∀ n ∈ pathCandidates false, fsNone.which n = none) ∧
       (∀ p ∈ commonLocations false "/home/u" [],
          (fsNone.pathExists p && fsNone.accessX p) = false))) :=
  ⟨⟨by decide, by decide,
    (klems_c10_find false "/home/u" klEnvW.environ fsW).1 (by decide) (by decide)⟩,
   (klems_c10_find false "/home/u" [] fsNone).2⟩

/-- C5: the per-port excitation loop of openems_model.py processes the
ports one at a time in list order; for each port it sets
excite_portnumbers to the singleton of that port's number, then calls
setupSimulation, then runSimulation, exactly once per port. -/
theorem openems_c5_excitation_loop (σ : Type) (lib : openems_model.Lib σ)
    (sp mb : String) :
    (openems_model.trace lib sp mb).filter DrvEvent.isExciteLoop
      = openems_model.simulation_ports.ports.flatMap (fun port =>
          [DrvEvent.setExcite [port.portnumber],
           DrvEvent.setupSim [port.portnumber],
           DrvEvent.runSim [port.portnumber]]) := by
  unfold openems_model.trace
  cases h : openems_model.s_params lib sp <;>
    simp [openems_model.preEvents, DrvEvent.isExciteLoop,
      openems_model.simulation_ports, AllSimPorts.add_port]

/-- C6: in both driver scripts the layer list passed to read_gds is the
stackup's metal layer numbers extended with every simulation port's source
layer number, and read_substrate on the XML file is called before read_gds
on the GDS file (positions 4 and 5 of the trace). -/
theorem c6_layers_and_read_order (σ : Type) (lib : openems_model.Lib σ)
    (plib : palace_model.Lib) (sp mb sp2 : String) :
    (openems_model.trace lib sp mb).take 5
      = [DrvEvent.loadSettings,
         DrvEvent.definePort ⟨1, 1, 50, 201, "Metal1", "TopMetal2", "z"⟩,
         DrvEvent.definePort ⟨2, 1, 50, 202, "Metal1", "TopMetal2", "z"⟩,
         DrvEvent.readSubstrate openems_model.XML_filename,
         DrvEvent.readGds openems_model.gds_filename
           ((lib.read_substrate openems_model.XML_filename).metalLayerNumbers
             ++ openems_model.simulation_ports.ports.map (fun p => p.source_layernum))
           openems_model.purpose openems_model.cellname] ∧
    (palace_model.trace plib sp2).take 5
      = [DrvEvent.loadSettings,
         DrvEvent.definePort ⟨1, 1, 50, 201, "Metal1", "TopMetal2", "z"⟩,
         DrvEvent.definePort ⟨2, 1, 50, 202, "Metal1", "TopMetal2", "z"⟩,
         DrvEvent.readSubstrate palace_model.XML_filename,
         DrvEvent.readGds palace_model.gds_filename
           ((plib.read_substrate palace_model.XML_filename).metalLayerNumbers
             ++ palace_model.simulation_ports.ports.map (fun p => p.source_layernum))
           palace_model.purpose palace_model.gds_cellname] := by
  constructor
  · unfold openems_model.trace
    cases h : openems_model.s_params lib sp <;> rfl
  · rfl

/-- C2 counterexample: a complete run of palace_model.py (concrete library
behaviour) launches no solver process, runs no simulation, and writes no
S-parameter file, because start_simulation is False in the script and the
script contains no Touchstone writer. -/
theorem c2_counterexample :
    (palace_model.trace palaceLibW "simdir").filter DrvEvent.isLaunchProc = []
    ∧ (palace_model.trace palaceLibW "simdir").filter DrvEvent.isRunSim = []
    ∧ (palace_model.trace palaceLibW "simdir").filter DrvEvent.isWriteSnp = []
    ∧ palace_model.start_simulation = false := by
  decide

/-- C2 amended: a complete run of openems_model.py invokes the solver once
per port and writes the Touchstone file; a complete run of palace_model.py
creates the Palace model and a run script but, with start_simulation False
as set in the script, launches no solver and writes no Touchstone file
itself. -/
theorem c2_amended :
    (∀ (σ : Type) (lib : openems_model.Lib σ) (sp mb : String),
      (∀ i j, (lib.calculate_Sij i j openems_model.fvec sp
          openems_model.simulation_ports).length = openems_model.numfreq) →
      ((openems_model.trace lib sp mb).filter DrvEvent.isRunSim
          = [DrvEvent.runSim [1], DrvEvent.runSim [2]]
        ∧ DrvEvent.writeSnp (openems_model.snp_name sp mb)
            ∈ openems_model.trace lib sp mb))
    ∧ (∀ (plib : palace_model.Lib) (sp : String),
        DrvEvent.createPalace palace_model.simulation_ports.all_active_excitations
            ∈ palace_model.trace plib sp
        ∧ DrvEvent.writeRunScript sp ∈ palace_model.trace plib sp
        ∧ (palace_model.trace plib sp).filter DrvEvent.isLaunchProc = []
        ∧ (palace_model.trace plib sp).filter DrvEvent.isWriteSnp = [])
    ∧ palace_model.start_simulation = false := by
  refine ⟨?_, ?_, rfl⟩
  · intro σ lib sp mb hlen
    rw [openems_trace_eq lib sp mb hlen]
    constructor
    · simp [openems_model.preEvents, DrvEvent.isRunSim,
        openems_model.simulation_ports, AllSimPorts.add_port]
    · simp [openems_model.preEvents]
  · intro plib sp
    refine ⟨?_, ?_, rfl, rfl⟩
    · simp [palace_model.trace]
    · simp [palace_model.trace]

/-- C2 witness: concrete library behaviours on which the openEMS driver
runs the solver per port and writes the file, while the Palace driver
launches nothing. -/
theorem c2_amended_witness :
    ((openems_model.trace openemsLibW "sp" "mb").filter DrvEvent.isRunSim
        = [DrvEvent.runSim [1], DrvEvent.runSim [2]]
      ∧ DrvEvent.writeSnp (openems_model.snp_name "sp" "mb")
          ∈ openems_model.trace openemsLibW "sp" "mb")
    ∧ (palace_model.trace palaceLibW "sp").filter DrvEvent.isLaunchProc = [] :=
  ⟨c2_amended.1 Unit openemsLibW "sp" "mb" (fun _ _ => rfl),
   (c2_amended.2.1 palaceLibW "sp").2.2.1⟩

/-- C4 counterexample: under the spec's claimed phase order (settings,
then stackup/geometry reads, then port definitions, then solver, then
output write) a concrete complete run of openems_model.py is out of order,
because the script defines its ports before reading stackup and
geometry. -/
theorem c4_counterexample :
    nondecreasing ((openems_model.trace openemsLibW "sp" "mb").map claimedPhase)
      = false := by
  decide

/-- C4 amended: each driver script performs its steps in the order load
settings, then define ports, then read stackup and geometry via library
calls, then invoke the solver library, then write the output file. -/
theorem c4_amended :
    (∀ (σ : Type) (lib : openems_model.Lib σ) (sp mb : String),
      (∀ i j, (lib.calculate_Sij i j openems_model.fvec sp
          openems_model.simulation_ports).length = openems_model.numfreq) →
      (openems_model.trace lib sp mb).map actualPhase
        = [0, 1, 1, 2, 2, 3, 3, 3, 3, 3, 3, 4])
    ∧ (∀ (plib : palace_model.Lib) (sp : String),
        (palace_model.trace plib sp).map actualPhase = [0, 1, 1, 2, 2, 3, 4]) := by
  constructor
  · intro σ lib sp mb hlen
    rw [openems_trace_eq lib sp mb hlen]
    rfl
  · intro plib sp
    rfl

/-- C4 witness: the amended order holds on a concrete complete run of
each driver. -/
theorem c4_amended_witness :
    (openems_model.trace openemsLibW "sp" "mb").map actualPhase
      = [0, 1, 1, 2, 2, 3, 3, 3, 3, 3, 3, 4]
    ∧ (palace_model.trace palaceLibW "sp").map actualPhase
      = [0, 1, 1, 2, 2, 3, 4] :=
  ⟨c4_amended.1 Unit openemsLibW "sp" "mb" (fun _ _ => rfl),
   c4_amended.2 palaceLibW "sp"⟩

/-- C3: after the excitation loop, openems_model.py builds an S-parameter
matrix of shape (portcount, portcount, numfreq) whose entry (i-1, j-1)
holds calculate_Sij(i, j, f, sim_path, simulation_ports) for 1 ≤ i, j ≤
portcount, where f is numfreq frequencies evenly spaced from fstart to
fstop, and writes it with write_snp to sim_path slash model_basename
followed by .s, the port count, and p. -/
theorem openems_c3_smatrix (σ : Type) (lib : openems_model.Lib σ) (sp mb : String)
    (hlen : ∀ i j, (lib.calculate_Sij i j openems_model.fvec sp
        openems_model.simulation_ports).length = openems_model.numfreq) :
    ∃ M, openems_model.s_params lib sp = some M
      ∧ M.length = openems_model.simulation_ports.portcount
      ∧ (∀ row ∈ M, row.length = openems_model.simulation_ports.portcount)
      ∧ (∀ row ∈ M, ∀ ent ∈ row, ent.length = openems_model.numfreq)
      ∧ (∀ i j, i < openems_model.simulation_ports.portcount →
          j < openems_model.simulation_ports.portcount →
          ∃ row, M[i]? = some row ∧
            row[j]? = some (lib.calculate_Sij (i + 1) (j + 1) openems_model.fvec sp
              openems_model.simulation_ports))
      ∧ openems_model.fvec.length = openems_model.numfreq
      ∧ openems_model.fvec[0]? = some openems_model.fstart
      ∧ openems_model.fvec[openems_model.numfreq - 1]? = some openems_model.fstop
      ∧ (∀ i, i + 1 < openems_model.numfreq →
          ∃ x y, openems_model.fvec[i]? = some x ∧ openems_model.fvec[i + 1]? = some y ∧
            y - x = (openems_model.fstop - openems_model.fstart)
              / ((openems_model.numfreq - 1 : Nat) : ℚ))
      ∧ openems_model.trace lib sp mb
          = openems_model.preEvents lib
            ++ [DrvEvent.writeSnp (openems_model.snp_name sp mb)]
      ∧ openems_model.snp_name sp mb
          = sp ++ "/" ++ mb ++ ".s"
            ++ toString openems_model.simulation_ports.portcount ++ "p" := by
  refine ⟨_, s_params_eq lib sp hlen, ?_, ?_, ?_, ?_, ?_, ?_, ?_, ?_,
    openems_trace_eq lib sp mb hlen, rfl⟩
  · rfl
  · intro row hrow
    rcases List.mem_map.mp hrow with ⟨i, -, rfl⟩
    rfl
  · intro row hrow ent hent
    rcases List.mem_map.mp hrow with ⟨i, -, rfl⟩
    rcases List.mem_map.mp hent with ⟨j, -, rfl⟩
    exact hlen (i + 1) (j + 1)
  · intro i j hi hj
    have hi2 : i < 2 := hi
    have hj2 : j < 2 := hj
    refine ⟨(List.range 2).map (fun j => lib.calculate_Sij (i + 1) (j + 1)
        openems_model.fvec sp openems_model.simulation_ports), ?_, ?_⟩
    · rw [List.getElem?_map, List.getElem?_range hi2]
      rfl
    · rw [List.getElem?_map, List.getElem?_range hj2]
      rfl
  · exact linspaceQ_length _ _ _
  · rw [show openems_model.fvec
        = openems_model.linspaceQ openems_model.fstart openems_model.fstop
            openems_model.numfreq from rfl,
      linspaceQ_getElem _ _ _ 0 (by decide)]
    norm_num
  · rw [show openems_model.fvec
        = openems_model.linspaceQ openems_model.fstart openems_model.fstop
            openems_model.numfreq from rfl,
      linspaceQ_getElem _ _ _ (openems_model.numfreq - 1) (by decide)]
    norm_num [openems_model.fstart, openems_model.fstop, openems_model.numfreq]
  · intro i hi
    refine ⟨_, _,
      (show openems_model.fvec[i]? = _ from
        linspaceQ_getElem _ _ _ i (Nat.lt_of_succ_lt hi)),
      (show openems_model.fvec[i + 1]? = _ from
        linspaceQ_getElem _ _ _ (i + 1) hi), ?_⟩
    push_cast
    ring

/-- C3 witness: concrete run of the postprocessing on a library whose
per-pair results have the expected length. -/
theorem openems_c3_smatrix_witness :
    (∀ i j, (openemsLibW.calculate_Sij i j openems_model.fvec "sp"
        openems_model.simulation_ports).length = openems_model.numfreq)
    ∧ (∃ M, openems_model.s_params openemsLibW "sp" = some M
      ∧ M.length = openems_model.simulation_ports.portcount
      ∧ (∀ row ∈ M, row.length = openems_model.simulation_ports.portcount)
      ∧ (∀ row ∈ M, ∀ ent ∈ row, ent.length = openems_model.numfreq)
      ∧ (∀ i j, i < openems_model.simulation_ports.portcount →
          j < openems_model.simulation_ports.portcount →
          ∃ row, M[i]? = some row ∧
            row[j]? = some (openemsLibW.calculate_Sij (i + 1) (j + 1)
              openems_model.fvec "sp" openems_model.simulation_ports))
      ∧ openems_model.fvec.length = openems_model.numfreq
      ∧ openems_model.fvec[0]? = some openems_model.fstart
      ∧ openems_model.fvec[openems_model.numfreq - 1]? = some openems_model.fstop
      ∧ (∀ i, i + 1 < openems_model.numfreq →
          ∃ x y, openems_model.fvec[i]? = some x ∧ openems_model.fvec[i + 1]? = some y ∧
            y - x = (openems_model.fstop - openems_model.fstart)
              / ((openems_model.numfreq - 1 : Nat) : ℚ))
      ∧ openems_model.trace openemsLibW "sp" "mb"
          = openems_model.preEvents openemsLibW
            ++ [DrvEvent.writeSnp (openems_model.snp_name "sp" "mb")]
      ∧ openems_model.snp_name "sp" "mb"
          = "sp" ++ "/" ++ "mb" ++ ".s"
            ++ toString openems_model.simulation_ports.portcount ++ "p") :=
  ⟨fun _ _ => rfl, openems_c3_smatrix Unit openemsLibW "sp" "mb" (fun _ _ => rfl)⟩

/-- C7: the three scripts are mutually independent: none imports another
(nor any threading or multiprocessing module), the solver drivers launch no
process except the conditional Palace run command (absent here since
start_simulation is False), and every subprocess the plugin handler
launches is the located EMStudio executable with its layout arguments. -/
theorem c7_independent :
    (∀ s ∈ scriptModuleNames,
      s ∉ klEmsDriver_imports ∧ s ∉ openems_model_imports ∧ s ∉ palace_model_imports)
    ∧ "threading" ∉ klEmsDriver_imports ++ openems_model_imports ++ palace_model_imports
    ∧ "multiprocessing" ∉ klEmsDriver_imports ++ openems_model_imports ++ palace_model_imports
    ∧ (∀ (σ : Type) (lib : openems_model.Lib σ) (sp mb : String),
        (openems_model.trace lib sp mb).filter DrvEvent.isLaunchProc = [])
    ∧ (∀ (plib : palace_model.Lib) (sp : String),
        (palace_model.trace plib sp).filter DrvEvent.isLaunchProc
          = if palace_model.start_simulation
            then [DrvEvent.launchProc palace_model.run_command] else [])
    ∧ (∀ (e : KlEnv) (out : KlOut), handler_func e = Except.ok out →
        ∀ args envp, KlEv.popen args envp ∈ out.trace →
          ∃ p, find_emstudio_executable e.isWindows e.home e.environ e.fs = some p ∧
            args = [p, "-gdsfile", e.filename, "-topcell", e.cell_name]) := by
  refine ⟨by decide, by decide, by decide, ?_, ?_, ?_⟩
  · intro σ lib sp mb
    unfold openems_model.trace
    cases h : openems_model.s_params lib sp <;>
      simp [openems_model.preEvents, DrvEvent.isLaunchProc,
        openems_model.simulation_ports, AllSimPorts.add_port]
  · intro plib sp
    rfl
  · intro e out hh args envp hmem
    obtain ⟨out2, hh2, hcase⟩ := handler_func_spec e
    rw [hh] at hh2
    injection hh2 with hout
    subst hout
    rcases hcase with ⟨-, rfl⟩ | ⟨-, -, -, rfl⟩ | ⟨-, -, -, -, rfl⟩ |
        ⟨p, -, -, -, hfind, -, rfl⟩ | ⟨p, -, -, -, hfind, -, rfl⟩
    · simp at hmem
    · simp at hmem
    · simp at hmem
    · simp at hmem
      exact ⟨p, hfind, hmem.1⟩
    · simp at hmem
      exact ⟨p, hfind, hmem.1⟩

/-- C7 witness: concrete instances of the independence facts, including
that the one subprocess a successful handler run launches is the located
EMStudio executable with the layout arguments. -/
theorem c7_independent_witness :
    "openems_model" ∉ klEmsDriver_imports
    ∧ (openems_model.trace openemsLibW "sp" "mb").filter DrvEvent.isLaunchProc = []
    ∧ (∃ p, find_emstudio_executable klEnvW.isWindows klEnvW.home
          klEnvW.environ klEnvW.fs = some p ∧
        ["/opt/EMStudio", "-gdsfile", "chip.gds", "-topcell", "TOP"]
          = [p, "-gdsfile", klEnvW.filename, "-topcell", klEnvW.cell_name]) := by
  refine ⟨(c7_independent.1 "openems_model" (by decide)).1,
    c7_independent.2.2.2.1 Unit openemsLibW "sp" "mb", ?_⟩
  exact c7_independent.2.2.2.2.2 klEnvW
    ⟨[KlEv.popen ["/opt/EMStudio", "-gdsfile", "chip.gds", "-topcell", "TOP"]
        [("EMSTUDIO_EXE", " \"/opt/EMStudio\" "), ("PATH", "/bin")]],
     klEnvW.environ⟩
    rfl
    ["/opt/EMStudio", "-gdsfile", "chip.gds", "-topcell", "TOP"]
    [("EMSTUDIO_EXE", " \"/opt/EMStudio\" "), ("PATH", "/bin")]
    (by simp)

end EMStudio
